import Mathlib

/-!
Shallow embedding of voxblox_ros/src/tsdf_server.cc (class TsdfServer):
the per-stream ingestion gate, frame sanitization, pose resolution and
integration dispatch, the incremental / full mesh cycles, and the thin
service callbacks.  External collaborators (transformer, TSDF integrator,
mesh integrator, PLY writer, layer persistence) live behind an Env record
of oracle functions; observable side effects are recorded as event traces.
ROS timestamps and durations are modelled as integers (ros.Time arithmetic
yields signed durations); float coordinates are modelled by a finiteness
flag plus an abstract payload, since the server code inspects coordinates
only through std.isfinite.
-/

namespace TsdfServerModel

/-- A float coordinate as the ingestion code sees it: the sanitization loop
inspects only finiteness (std.isfinite); a value carries an abstract
integer payload standing for the bit pattern of the finite value. -/
structure FloatVal where
  finite : Bool
  val : Int
deriving DecidableEq, Repr

/-- One raw sample of the pcl.PointXYZRGB cloud obtained from the message. -/
structure PclPoint where
  x : FloatVal
  y : FloatVal
  z : FloatVal
  r : Nat
  g : Nat
  b : Nat
  a : Nat
deriving DecidableEq, Repr

/-- A sanitized 3D point pushed into points_C. -/
structure Point where
  x : FloatVal
  y : FloatVal
  z : FloatVal
deriving DecidableEq, Repr

/-- A color pushed into the colors array, paired with the point of the same
index. -/
structure Color where
  r : Nat
  g : Nat
  b : Nat
  a : Nat
deriving DecidableEq, Repr

/-- All three coordinate components of the raw sample are finite. -/
def pclPointFinite (p : PclPoint) : Bool :=
  p.x.finite && p.y.finite && p.z.finite

/-- The geometry part kept from a raw sample. -/
def toPoint (p : PclPoint) : Point := ⟨p.x, p.y, p.z⟩

/-- The color part kept from a raw sample. -/
def toColor (p : PclPoint) : Color := ⟨p.r, p.g, p.b, p.a⟩

/-- The sanitization loop of TsdfServer.processPointCloudMessageAndInsert
(tsdf_server.cc lines 212-225): for each sample, if x, y or z is
non-finite the sample is skipped (continue), otherwise the point and its
color are pushed onto the two parallel output arrays. -/
def sanitizePoints : List PclPoint → List Point × List Color
  | [] => ([], [])
  | p :: rest =>
    if !p.x.finite || !p.y.finite || !p.z.finite then
      sanitizePoints rest
    else
      ((toPoint p) :: (sanitizePoints rest).1,
       (toColor p) :: (sanitizePoints rest).2)

/-- A resolved rigid transform T_G_C from sensor frame to world frame,
kept abstract. -/
structure Transformation where
  id : Nat
deriving DecidableEq, Repr

/-- Color modes parsed from the color_mode parameter (tsdf_server.cc
lines 140-154). -/
inductive ColorMode where
  | kColor
  | kHeight
  | kNormals
  | kLambert
  | kLambertColor
  | kGray
deriving DecidableEq, Repr

/-- Block merging strategies of Layer.BlockMergingStrategy; the load
callback passes kReplace. -/
inductive BlockMergingStrategy where
  | kProhibit
  | kReplace
  | kDiscard
  | kMerge
deriving DecidableEq, Repr

/-- One allocated TSDF block: abstract voxel data plus the updated
(dirty) flag read and cleared by mesh generation. -/
structure MapBlock where
  data : Int
  updated : Bool
deriving DecidableEq, Repr

/-- The TSDF layer: an association list from block index to block. -/
structure TsdfMapModel where
  blocks : List (Nat × MapBlock)
deriving DecidableEq, Repr

/-- The mesh layer: an association list from block index to abstract mesh
content for that block. -/
structure MeshLayerModel where
  blocks : List (Nat × Int)
deriving DecidableEq, Repr

/-- Configuration read once in the TsdfServer constructor; immutable
afterwards.  min_time_between_msgs is a signed duration (ros.Duration). -/
structure ServerConfig where
  min_time_between_msgs : Int
  world_frame : String
  mesh_filename : String
  color_mode : ColorMode
  publish_tsdf_info : Bool
  publish_slices : Bool
deriving DecidableEq, Repr

/-- Mutable server state: the two per-stream throttle watermarks (the
function-local static last_msg_time of insertPointcloud and of
insertFreespacePointcloud), the TSDF map, the mesh layer, and the
abstract non-map internal state of the TSDF integrator. -/
structure ServerState where
  last_msg_time : Int
  freespace_last_msg_time : Int
  tsdf_map : TsdfMapModel
  mesh_layer : MeshLayerModel
  integrator_state : Int
deriving DecidableEq, Repr

/-- External collaborators (spec section 6), supplied as oracles:
transform lookup, the TSDF integrator's map update, per-block surface
extraction used by the mesh integrator model, the PLY writer, and the
layer persistence codec. -/
structure Env where
  lookupTransform : String → String → Int → Option Transformation
  integratePointCloud :
    TsdfMapModel → Transformation → List Point → List Color → Bool → TsdfMapModel
  extractBlock : Int → Int
  outputMeshLayerAsPly : String → MeshLayerModel → Bool
  loadBlocksFromFile :
    String → BlockMergingStrategy → TsdfMapModel → Bool × TsdfMapModel
  saveLayer : TsdfMapModel → String → Bool

/-- Observable side effects of the server, in program order. -/
inductive Event where
  | lookupTransformEv (source target : String) (stamp : Int)
  | sanitizeEv (input kept : Nat)
  | integrateEv (points : List Point) (colors : List Color) (is_freespace : Bool)
  | newPoseCallbackEv (T : Transformation)
  | publishTsdfPointcloudEv
  | publishSurfacePointsEv
  | publishOccupiedNodesEv
  | publishSlicesEv
  | generateMeshEv (only_mesh_updated_blocks clear_updated_flag : Bool)
  | publishMeshEv (frame_id : String) (mode : ColorMode)
  | outputMeshPlyEv (filename : String) (success : Bool)
  | loadBlocksEv (path : String) (strategy : BlockMergingStrategy)
  | saveLayerEv (path : String)
deriving DecidableEq, Repr

/-- An incoming sensor_msgs.PointCloud2 message: header frame id and
stamp, plus the parsed samples. -/
structure PointCloud2 where
  frame_id : String
  stamp : Int
  points : List PclPoint
deriving DecidableEq, Repr

/-- TsdfServer.processPointCloudMessageAndInsert (tsdf_server.cc lines
185-244): look up the transform from sensor to world frame at the message
stamp; on success sanitize the cloud, integrate it (mutating the map) and
fire the new-pose hook; on failure do nothing further — the frame is
dropped silently. -/
def processPointCloudMessageAndInsert (env : Env) (cfg : ServerConfig)
    (st : ServerState) (msg : PointCloud2) (is_freespace_pointcloud : Bool) :
    ServerState × List Event :=
  match env.lookupTransform msg.frame_id cfg.world_frame msg.stamp with
  | some T_G_C =>
    let sc := sanitizePoints msg.points
    let map := env.integratePointCloud st.tsdf_map T_G_C sc.1 sc.2
      is_freespace_pointcloud
    ({ st with tsdf_map := map },
     [Event.lookupTransformEv msg.frame_id cfg.world_frame msg.stamp,
      Event.sanitizeEv msg.points.length sc.1.length,
      Event.integrateEv sc.1 sc.2 is_freespace_pointcloud,
      Event.newPoseCallbackEv T_G_C])
  | none =>
    (st, [Event.lookupTransformEv msg.frame_id cfg.world_frame msg.stamp])

/-- TsdfServer.insertPointcloud (tsdf_server.cc lines 246-272): drop the
message when stamp minus the primary watermark is below the configured
minimum interval; otherwise advance the watermark to the stamp and process
the message as a surface cloud, then fire the optional diagnostic
publications. -/
def insertPointcloud (env : Env) (cfg : ServerConfig) (st : ServerState)
    (msg : PointCloud2) : ServerState × List Event :=
  if msg.stamp - st.last_msg_time < cfg.min_time_between_msgs then
    (st, [])
  else
    let st1 := { st with last_msg_time := msg.stamp }
    let r := processPointCloudMessageAndInsert env cfg st1 msg false
    (r.1,
     r.2 ++
       (if cfg.publish_tsdf_info then
         [Event.publishTsdfPointcloudEv, Event.publishSurfacePointsEv,
          Event.publishOccupiedNodesEv]
        else []) ++
       (if cfg.publish_slices then [Event.publishSlicesEv] else []))

/-- TsdfServer.insertFreespacePointcloud (tsdf_server.cc lines 274-285):
same gate against the freespace stream's own watermark, then process the
message as a freespace cloud; no diagnostic publications. -/
def insertFreespacePointcloud (env : Env) (cfg : ServerConfig)
    (st : ServerState) (msg : PointCloud2) : ServerState × List Event :=
  if msg.stamp - st.freespace_last_msg_time < cfg.min_time_between_msgs then
    (st, [])
  else
    let st1 := { st with freespace_last_msg_time := msg.stamp }
    processPointCloudMessageAndInsert env cfg st1 msg true

/-- Modelled from the spec: the external mesh extractor
generate(map, meshArtifact, onlyDirtyBlocks, clearDirtyFlag) of
MeshIntegrator.generateMesh, which is not under src/.  An incremental
pass (onlyDirtyBlocks true) re-extracts exactly the blocks currently
marked dirty, updating their mesh content in place and leaving other mesh
blocks untouched; a full pass re-extracts every allocated block,
regenerating the artifact; clearDirtyFlag clears the dirty flag of every
included block.  Per-block surface extraction is the abstract function
extract of the block's voxel data. -/
def meshGenerate (extract : Int → Int) (map : TsdfMapModel)
    (mesh : MeshLayerModel) (only_mesh_updated_blocks clear_updated_flag : Bool) :
    TsdfMapModel × MeshLayerModel :=
  if only_mesh_updated_blocks then
    (⟨map.blocks.map (fun p =>
        if p.2.updated && clear_updated_flag then
          (p.1, { p.2 with updated := false })
        else p)⟩,
     ⟨mesh.blocks.map (fun q =>
        match (map.blocks.filter (fun p => p.1 == q.1 && p.2.updated)).head? with
        | some p => (q.1, extract p.2.data)
        | none => q) ++
      (map.blocks.filter (fun p =>
        p.2.updated && !(mesh.blocks.any (fun q => q.1 == p.1)))).map
        (fun p => (p.1, extract p.2.data))⟩)
  else
    (⟨map.blocks.map (fun p =>
        (p.1, if clear_updated_flag then { p.2 with updated := false } else p.2))⟩,
     ⟨map.blocks.map (fun p => (p.1, extract p.2.data))⟩)

/-- TsdfServer.updateMesh (tsdf_server.cc lines 335-352): the incremental
cycle — generate the mesh over only the updated blocks, clearing their
updated flags, then serialize and publish the mesh; no file export. -/
def updateMesh (env : Env) (cfg : ServerConfig) (st : ServerState) :
    ServerState × List Event :=
  let r := meshGenerate env.extractBlock st.tsdf_map st.mesh_layer true true
  ({ st with tsdf_map := r.1, mesh_layer := r.2 },
   [Event.generateMeshEv true true,
    Event.publishMeshEv cfg.world_frame cfg.color_mode])

/-- TsdfServer.updateMeshEvent (tsdf_server.cc line 414): the periodic
timer handler just calls updateMesh. -/
def updateMeshEvent (env : Env) (cfg : ServerConfig) (st : ServerState) :
    ServerState × List Event :=
  updateMesh env cfg st

/-- TsdfServer.generateMesh (tsdf_server.cc lines 354-390): the full
cycle — with the hard-coded clear_mesh flag true, generate the mesh over
all blocks (only_mesh_updated_blocks false, clear_updated_flag true);
publish the mesh; then, if mesh_filename is non-empty, write the mesh
layer as PLY, logging success or failure; finally return true
unconditionally. -/
def generateMesh (env : Env) (cfg : ServerConfig) (st : ServerState) :
    Bool × ServerState × List Event :=
  let clear_mesh := true
  let gen :=
    if clear_mesh then
      (meshGenerate env.extractBlock st.tsdf_map st.mesh_layer false true,
       Event.generateMeshEv false true)
    else
      (meshGenerate env.extractBlock st.tsdf_map st.mesh_layer true true,
       Event.generateMeshEv true true)
  let st1 := { st with tsdf_map := gen.1.1, mesh_layer := gen.1.2 }
  let evs := [gen.2, Event.publishMeshEv cfg.world_frame cfg.color_mode]
  if cfg.mesh_filename = "" then
    (true, st1, evs)
  else
    let success := env.outputMeshLayerAsPly cfg.mesh_filename gen.1.2
    (true, st1, evs ++ [Event.outputMeshPlyEv cfg.mesh_filename success])

/-- TsdfServer.generateMeshCallback (tsdf_server.cc lines 392-396): the
generate_mesh service handler returns generateMesh's result; the request
carries no data (std_srvs.Empty). -/
def generateMeshCallback (env : Env) (cfg : ServerConfig) (st : ServerState) :
    Bool × ServerState × List Event :=
  generateMesh env cfg st

/-- A voxblox_msgs.FilePath service request. -/
structure FilePathRequest where
  file_path : String
deriving DecidableEq, Repr

/-- TsdfServer.saveMapCallback (tsdf_server.cc lines 398-403): delegate
to io.SaveLayer on the current TSDF layer; no state change. -/
def saveMapCallback (env : Env) (st : ServerState) (req : FilePathRequest) :
    Bool × List Event :=
  (env.saveLayer st.tsdf_map req.file_path, [Event.saveLayerEv req.file_path])

/-- TsdfServer.loadMapCallback (tsdf_server.cc lines 405-412): delegate
to io.LoadBlocksFromFile with the hard-coded kReplace merging strategy on
the TSDF layer, returning the codec's boolean; nothing else is done. -/
def loadMapCallback (env : Env) (st : ServerState) (req : FilePathRequest) :
    Bool × ServerState × List Event :=
  let r := env.loadBlocksFromFile req.file_path BlockMergingStrategy.kReplace
    st.tsdf_map
  (r.1, { st with tsdf_map := r.2 },
   [Event.loadBlocksEv req.file_path BlockMergingStrategy.kReplace])

/-- Modelled from the spec: Layer.removeAllBlocks (not under src/)
empties the block store — the map never shrinks except via explicit clear
or full-block removal. -/
def removeAllBlocks (_m : TsdfMapModel) : TsdfMapModel := ⟨[]⟩

/-- Modelled from the spec: MeshLayer.clear (not under src/) empties the
derived mesh cache. -/
def meshLayerClear (_m : MeshLayerModel) : MeshLayerModel := ⟨[]⟩

/-- TsdfServer.clear (tsdf_server.cc lines 416-419): remove all blocks of
the TSDF layer and clear the mesh layer; nothing else is touched. -/
def clear (st : ServerState) : ServerState :=
  { st with tsdf_map := removeAllBlocks st.tsdf_map,
            mesh_layer := meshLayerClear st.mesh_layer }

/-- An incoming frame tagged by the stream (subscriber) it arrives on. -/
inductive Frame where
  | primary (msg : PointCloud2)
  | freespace (msg : PointCloud2)
deriving DecidableEq, Repr

/-- State reached after one incoming frame on either stream. -/
def stepFrame (env : Env) (cfg : ServerConfig) (st : ServerState) :
    Frame → ServerState
  | Frame.primary m => (insertPointcloud env cfg st m).1
  | Frame.freespace m => (insertFreespacePointcloud env cfg st m).1

/-- State reached after a sequence of incoming frames. -/
def runFrames (env : Env) (cfg : ServerConfig) (st : ServerState)
    (fs : List Frame) : ServerState :=
  fs.foldl (stepFrame env cfg) st

/-- Fixture: an environment whose pose lookup always succeeds and whose
remaining collaborators are benign. -/
def envPose : Env :=
  ⟨fun _ _ _ => some ⟨0⟩, fun m _ _ _ _ => m, fun d => d,
   fun _ _ => true, fun _ _ m => (true, m), fun _ _ => true⟩

/-- Fixture: an environment whose pose lookup always fails. -/
def envNoPose : Env :=
  ⟨fun _ _ _ => none, fun m _ _ _ _ => m, fun d => d,
   fun _ _ => true, fun _ _ m => (true, m), fun _ _ => true⟩

/-- Fixture: an environment whose PLY export always fails. -/
def envExportFail : Env :=
  ⟨fun _ _ _ => some ⟨0⟩, fun m _ _ _ _ => m, fun d => d,
   fun _ _ => false, fun _ _ m => (true, m), fun _ _ => true⟩

/-- Fixture: an environment whose load codec replaces the map by one
block, index 0, with the updated flag not set. -/
def envLoadOne : Env :=
  ⟨fun _ _ _ => some ⟨0⟩, fun m _ _ _ _ => m, fun d => d,
   fun _ _ => true, fun _ _ _ => (true, ⟨[(0, ⟨7, false⟩)]⟩),
   fun _ _ => true⟩

/-- Fixture: a two-block map, one block dirty. -/
def mapA : TsdfMapModel := ⟨[(0, ⟨3, true⟩), (1, ⟨5, false⟩)]⟩

/-- Fixture: a server state with both watermarks at 0. -/
def stA : ServerState := ⟨0, 0, mapA, ⟨[]⟩, 0⟩

/-- Fixture: configuration with a 10-tick minimum interval and no mesh
filename. -/
def cfgA : ServerConfig := ⟨10, "world", "", ColorMode.kColor, false, false⟩

/-- Fixture: configuration with a mesh filename set. -/
def cfgFile : ServerConfig := ⟨10, "world", "mesh.ply", ColorMode.kColor, false, false⟩

/-- Fixture: a message arriving 5 ticks after watermark 0 (below the
10-tick minimum). -/
def msgEarly : PointCloud2 := ⟨"cam", 5, []⟩

/-- Fixture: a message arriving 20 ticks after watermark 0 (admitted),
with one finite and one non-finite sample. -/
def msgLate : PointCloud2 :=
  ⟨"cam", 20,
   [⟨⟨true, 1⟩, ⟨true, 2⟩, ⟨true, 3⟩, 9, 9, 9, 9⟩,
    ⟨⟨false, 0⟩, ⟨true, 2⟩, ⟨true, 3⟩, 9, 9, 9, 9⟩]⟩

theorem sanitizePoints_eq_filter (l : List PclPoint) :
    sanitizePoints l =
      ((l.filter pclPointFinite).map toPoint,
       (l.filter pclPointFinite).map toColor) := by
  induction l with
  | nil => rfl
  | cons p rest ih =>
    cases hx : p.x.finite <;> cases hy : p.y.finite <;> cases hz : p.z.finite <;>
      simp [sanitizePoints, List.filter, pclPointFinite, hx, hy, hz, ih]

/-- Claim C3: sanitization drops exactly the samples with a non-finite
coordinate component, discarding coordinate and color together; the two
output arrays stay index-aligned (both equal the finite-filtered input,
mapped to geometry resp. color), have equal length bounded by the input
length, and no other filtering or deduplication occurs. -/
theorem sanitize_drops_exactly_nonfinite (l : List PclPoint) :
    (sanitizePoints l).1 = (l.filter pclPointFinite).map toPoint ∧
    (sanitizePoints l).2 = (l.filter pclPointFinite).map toColor ∧
    (sanitizePoints l).1.length = (sanitizePoints l).2.length ∧
    (sanitizePoints l).1.length ≤ l.length := by
  have h := sanitizePoints_eq_filter l
  refine ⟨by rw [h], by rw [h], ?_, ?_⟩
  · rw [h]; simp
  · rw [h]
    simp only [List.length_map]
    exact List.length_filter_le _ _

theorem process_frame_fields (env : Env) (cfg : ServerConfig)
    (st : ServerState) (msg : PointCloud2) (b : Bool) :
    (processPointCloudMessageAndInsert env cfg st msg b).1.last_msg_time =
      st.last_msg_time ∧
    (processPointCloudMessageAndInsert env cfg st msg b).1.freespace_last_msg_time =
      st.freespace_last_msg_time ∧
    (processPointCloudMessageAndInsert env cfg st msg b).1.mesh_layer =
      st.mesh_layer ∧
    (processPointCloudMessageAndInsert env cfg st msg b).1.integrator_state =
      st.integrator_state ∧
    (processPointCloudMessageAndInsert env cfg st msg b).2 ≠ [] := by
  cases hmatch : env.lookupTransform msg.frame_id cfg.world_frame msg.stamp <;>
    simp [processPointCloudMessageAndInsert, hmatch]

/-- Claim C1: a frame on the primary stream is admitted (processing
events are emitted) iff its stamp minus the stream's watermark is at
least the configured minimum interval; when admitted the watermark
becomes the frame's stamp no matter what the downstream collaborators do
(the environment is universally quantified), and when dropped the whole
state — watermark included — is unchanged and nothing happens. -/
theorem insertPointcloud_admission (env : Env) (cfg : ServerConfig)
    (st : ServerState) (msg : PointCloud2) :
    ((insertPointcloud env cfg st msg).2 ≠ [] ↔
      cfg.min_time_between_msgs ≤ msg.stamp - st.last_msg_time) ∧
    (insertPointcloud env cfg st msg).1.last_msg_time =
      (if cfg.min_time_between_msgs ≤ msg.stamp - st.last_msg_time
       then msg.stamp else st.last_msg_time) ∧
    (msg.stamp - st.last_msg_time < cfg.min_time_between_msgs →
      insertPointcloud env cfg st msg = (st, [])) := by
  by_cases h : msg.stamp - st.last_msg_time < cfg.min_time_between_msgs
  · simp [insertPointcloud, h, not_le.mpr h]
  · have hle : cfg.min_time_between_msgs ≤ msg.stamp - st.last_msg_time :=
      not_lt.mp h
    have hf := process_frame_fields env cfg
      { st with last_msg_time := msg.stamp } msg false
    refine ⟨?_, ?_, ?_⟩
    · simp only [insertPointcloud, if_neg h]
      constructor
      · intro _; exact hle
      · intro _
        simp only [ne_eq, List.append_eq_nil]
        intro hc
        exact hf.2.2.2.2 hc.1.1
    · simp only [insertPointcloud, if_neg h, if_pos hle]
      exact hf.1
    · intro hc; exact absurd hc h

/-- Witness for claim C1's theorem at a dropped frame: stamp 5 against
watermark 0 with minimum interval 10 leaves the state untouched. -/
theorem insertPointcloud_admission_witness :
    msgEarly.stamp - stA.last_msg_time < cfgA.min_time_between_msgs ∧
    insertPointcloud envPose cfgA stA msgEarly = (stA, []) :=
  ⟨by decide,
   (insertPointcloud_admission envPose cfgA stA msgEarly).2.2 (by decide)⟩

/-- Claim C4: for an admitted primary frame whose pose lookup fails, the
frame is discarded with no integrator call, no sanitization and no
pose-observed notification; the callback still returns normally (the
optional diagnostic publications still run, so the failure is not
escalated), and the stream watermark has already advanced to the frame's
stamp, because admission precedes pose resolution. -/
theorem pose_failure_discards_frame (env : Env) (cfg : ServerConfig)
    (st : ServerState) (msg : PointCloud2)
    (hlook : env.lookupTransform msg.frame_id cfg.world_frame msg.stamp = none)
    (hadm : cfg.min_time_between_msgs ≤ msg.stamp - st.last_msg_time) :
    (insertPointcloud env cfg st msg).1 =
      { st with last_msg_time := msg.stamp } ∧
    (insertPointcloud env cfg st msg).2 =
      [Event.lookupTransformEv msg.frame_id cfg.world_frame msg.stamp] ++
        (if cfg.publish_tsdf_info then
          [Event.publishTsdfPointcloudEv, Event.publishSurfacePointsEv,
           Event.publishOccupiedNodesEv]
         else []) ++
        (if cfg.publish_slices then [Event.publishSlicesEv] else []) ∧
    (∀ p c b, Event.integrateEv p c b ∉ (insertPointcloud env cfg st msg).2) ∧
    (∀ i k, Event.sanitizeEv i k ∉ (insertPointcloud env cfg st msg).2) ∧
    (∀ T, Event.newPoseCallbackEv T ∉ (insertPointcloud env cfg st msg).2) := by
  have h : ¬ msg.stamp - st.last_msg_time < cfg.min_time_between_msgs :=
    not_lt.mpr hadm
  refine ⟨?_, ?_, ?_, ?_, ?_⟩ <;>
    cases hpi : cfg.publish_tsdf_info <;> cases hps : cfg.publish_slices <;>
      simp [insertPointcloud, processPointCloudMessageAndInsert, h, hlook,
        hpi, hps]

/-- Witness for claim C4's theorem: with a failing lookup, an admitted
frame at stamp 20 yields only the watermark update. -/
theorem pose_failure_discards_frame_witness :
    (insertPointcloud envNoPose cfgA stA msgLate).1 =
      { stA with last_msg_time := msgLate.stamp } :=
  (pose_failure_discards_frame envNoPose cfgA stA msgLate rfl (by decide)).1

theorem insertPointcloud_freespace_watermark (env : Env) (cfg : ServerConfig)
    (st : ServerState) (msg : PointCloud2) :
    (insertPointcloud env cfg st msg).1.freespace_last_msg_time =
      st.freespace_last_msg_time := by
  by_cases h : msg.stamp - st.last_msg_time < cfg.min_time_between_msgs
  · simp [insertPointcloud, h]
  · simp only [insertPointcloud, if_neg h]
    exact (process_frame_fields env cfg
      { st with last_msg_time := msg.stamp } msg false).2.1

theorem insertFreespacePointcloud_primary_watermark (env : Env)
    (cfg : ServerConfig) (st : ServerState) (msg : PointCloud2) :
    (insertFreespacePointcloud env cfg st msg).1.last_msg_time =
      st.last_msg_time := by
  by_cases h : msg.stamp - st.freespace_last_msg_time < cfg.min_time_between_msgs
  · simp [insertFreespacePointcloud, h]
  · simp only [insertFreespacePointcloud, if_neg h]
    exact (process_frame_fields env cfg
      { st with freespace_last_msg_time := msg.stamp } msg true).1

theorem stepFrame_last_mono (env : Env) (cfg : ServerConfig)
    (hmin : 0 ≤ cfg.min_time_between_msgs) (st : ServerState) (f : Frame) :
    st.last_msg_time ≤ (stepFrame env cfg st f).last_msg_time := by
  cases f with
  | primary m =>
    by_cases h : m.stamp - st.last_msg_time < cfg.min_time_between_msgs
    · simp [stepFrame, insertPointcloud, h]
    · have hle : st.last_msg_time ≤ m.stamp := by
        have := not_lt.mp h
        omega
      simp only [stepFrame, insertPointcloud, if_neg h]
      have := (process_frame_fields env cfg
        { st with last_msg_time := m.stamp } m false).1
      rw [this]
      exact hle
  | freespace m =>
    simp only [stepFrame]
    rw [insertFreespacePointcloud_primary_watermark]

theorem stepFrame_freespace_mono (env : Env) (cfg : ServerConfig)
    (hmin : 0 ≤ cfg.min_time_between_msgs) (st : ServerState) (f : Frame) :
    st.freespace_last_msg_time ≤ (stepFrame env cfg st f).freespace_last_msg_time := by
  cases f with
  | primary m =>
    simp only [stepFrame]
    rw [insertPointcloud_freespace_watermark]
  | freespace m =>
    by_cases h : m.stamp - st.freespace_last_msg_time < cfg.min_time_between_msgs
    · simp [stepFrame, insertFreespacePointcloud, h]
    · have hle : st.freespace_last_msg_time ≤ m.stamp := by
        have := not_lt.mp h
        omega
      simp only [stepFrame, insertFreespacePointcloud, if_neg h]
      have := (process_frame_fields env cfg
        { st with freespace_last_msg_time := m.stamp } m true).2.1
      rw [this]
      exact hle

/-- Claim C8: for any non-negative minimum interval, each stream's
throttle watermark is monotone non-decreasing across any sequence of
incoming frames; moreover the streams are independent — a primary frame
never modifies the freespace watermark and its outcome never reads it
(the result is the canonical result with the freespace watermark carried
through), and symmetrically for freespace frames. -/
theorem watermarks_monotone_and_independent (env : Env) (cfg : ServerConfig)
    (hmin : 0 ≤ cfg.min_time_between_msgs) :
    (∀ st fs, st.last_msg_time ≤ (runFrames env cfg st fs).last_msg_time ∧
      st.freespace_last_msg_time ≤
        (runFrames env cfg st fs).freespace_last_msg_time) ∧
    (∀ st msg, (insertPointcloud env cfg st msg).1.freespace_last_msg_time =
        st.freespace_last_msg_time ∧
      (insertFreespacePointcloud env cfg st msg).1.last_msg_time =
        st.last_msg_time) ∧
    (∀ st w msg,
      insertPointcloud env cfg { st with freespace_last_msg_time := w } msg =
        (({ (insertPointcloud env cfg st msg).1 with
            freespace_last_msg_time := w },
          (insertPointcloud env cfg st msg).2)) ∧
      insertFreespacePointcloud env cfg { st with last_msg_time := w } msg =
        (({ (insertFreespacePointcloud env cfg st msg).1 with
            last_msg_time := w },
          (insertFreespacePointcloud env cfg st msg).2))) := by
  refine ⟨?_, ?_, ?_⟩
  · intro st fs
    induction fs generalizing st with
    | nil => exact ⟨le_refl _, le_refl _⟩
    | cons f rest ih =>
      have h1 := stepFrame_last_mono env cfg hmin st f
      have h2 := stepFrame_freespace_mono env cfg hmin st f
      have h3 := ih (stepFrame env cfg st f)
      exact ⟨le_trans h1 h3.1, le_trans h2 h3.2⟩
  · intro st msg
    exact ⟨insertPointcloud_freespace_watermark env cfg st msg,
      insertFreespacePointcloud_primary_watermark env cfg st msg⟩
  · intro st w msg
    constructor
    · by_cases h : msg.stamp - st.last_msg_time < cfg.min_time_between_msgs
      · simp [insertPointcloud, h]
      · cases hmatch : env.lookupTransform msg.frame_id cfg.world_frame
          msg.stamp <;>
          simp [insertPointcloud, processPointCloudMessageAndInsert, h,
            hmatch]
    · by_cases h : msg.stamp - st.freespace_last_msg_time <
        cfg.min_time_between_msgs
      · simp [insertFreespacePointcloud, h]
      · cases hmatch : env.lookupTransform msg.frame_id cfg.world_frame
          msg.stamp <;>
          simp [insertFreespacePointcloud, processPointCloudMessageAndInsert,
            h, hmatch]

/-- Witness for claim C8's theorem: running a primary-then-freespace
sequence from watermark 0 with minimum interval 10 never decreases the
primary watermark. -/
theorem watermarks_monotone_and_independent_witness :
    (0 : Int) ≤ cfgA.min_time_between_msgs ∧
    stA.last_msg_time ≤
      (runFrames envPose cfgA stA
        [Frame.primary msgLate, Frame.freespace msgEarly]).last_msg_time :=
  ⟨by decide,
   ((watermarks_monotone_and_independent envPose cfgA (by decide)).1 stA
     [Frame.primary msgLate, Frame.freespace msgEarly]).1⟩

/-- Claim C5: every full mesh cycle extracts with onlyDirtyBlocks false
and clearDirtyFlag true, publishes, and then attempts the file export iff
a mesh filename is configured; the trace equation fixes the order
(extract, publish, then export) and shows there is exactly one extraction
pass (never a dirty-only one); the resulting state is the full extraction
result whatever the export outcome, so export failure neither undoes the
publish nor repeats extraction. -/
theorem generateMesh_full_cycle (env : Env) (cfg : ServerConfig)
    (st : ServerState) :
    (generateMesh env cfg st).2.2 =
      [Event.generateMeshEv false true,
       Event.publishMeshEv cfg.world_frame cfg.color_mode] ++
      (if cfg.mesh_filename = "" then []
       else [Event.outputMeshPlyEv cfg.mesh_filename
         (env.outputMeshLayerAsPly cfg.mesh_filename
           (meshGenerate env.extractBlock st.tsdf_map st.mesh_layer
             false true).2)]) ∧
    (∀ c, Event.generateMeshEv true c ∉ (generateMesh env cfg st).2.2) ∧
    ((∃ ok, Event.outputMeshPlyEv cfg.mesh_filename ok ∈
        (generateMesh env cfg st).2.2) ↔ cfg.mesh_filename ≠ "") ∧
    (generateMesh env cfg st).2.1 =
      { st with
        tsdf_map :=
          (meshGenerate env.extractBlock st.tsdf_map st.mesh_layer
            false true).1,
        mesh_layer :=
          (meshGenerate env.extractBlock st.tsdf_map st.mesh_layer
            false true).2 } := by
  by_cases hf : cfg.mesh_filename = "" <;>
    simp [generateMesh, hf]

/-- Claim C6: the timer-triggered incremental cycle extracts with
onlyDirtyBlocks true and clearDirtyFlag true and publishes; no file
export event can occur on this path whatever filename is configured, and
the timer handler is exactly updateMesh. -/
theorem updateMesh_incremental_no_export (env : Env) (cfg : ServerConfig)
    (st : ServerState) :
    (updateMesh env cfg st).2 =
      [Event.generateMeshEv true true,
       Event.publishMeshEv cfg.world_frame cfg.color_mode] ∧
    (∀ f ok, Event.outputMeshPlyEv f ok ∉ (updateMesh env cfg st).2) ∧
    updateMeshEvent env cfg st = updateMesh env cfg st := by
  refine ⟨rfl, ?_, rfl⟩
  intro f ok
  simp [updateMesh]

/-- Claim C2 counterexample: with a configured mesh filename and a PLY
writer that fails, the export is attempted and fails, yet generateMesh
still returns true — the returned boolean does not reflect export
failure. -/
theorem generateMesh_export_failure_cex :
    cfgFile.mesh_filename ≠ "" ∧
    Event.outputMeshPlyEv cfgFile.mesh_filename false ∈
      (generateMesh envExportFail cfgFile stA).2.2 ∧
    (generateMesh envExportFail cfgFile stA).1 = true := by
  decide

/-- Claim C2 (amended): generateMesh, and hence the generate_mesh service
callback, returns true unconditionally; export failure is only logged and
never reflected in the returned boolean. -/
theorem generateMesh_always_true (env : Env) (cfg : ServerConfig)
    (st : ServerState) :
    (generateMesh env cfg st).1 = true ∧
    (generateMeshCallback env cfg st).1 = true := by
  constructor <;>
    (by_cases hf : cfg.mesh_filename = "" <;>
      simp [generateMesh, generateMeshCallback, hf])

theorem generateMesh_state (env : Env) (cfg : ServerConfig)
    (st : ServerState) :
    (generateMesh env cfg st).2.1 =
      { st with
        tsdf_map := ⟨st.tsdf_map.blocks.map
          (fun p => (p.1, { p.2 with updated := false }))⟩,
        mesh_layer := ⟨st.tsdf_map.blocks.map
          (fun p => (p.1, env.extractBlock p.2.data))⟩ } := by
  by_cases hf : cfg.mesh_filename = "" <;>
    simp [generateMesh, meshGenerate, hf]

/-- Claim C9: running the full mesh cycle twice with no intervening map
mutation yields the identical mesh artifact — and the identical map,
since the second full pass re-extracts the same voxel data and re-clears
already-clear flags; the second run is a no-op on mesh content. -/
theorem generateMesh_idempotent (env : Env) (cfg : ServerConfig)
    (st : ServerState) :
    (generateMesh env cfg (generateMesh env cfg st).2.1).2.1.mesh_layer =
      (generateMesh env cfg st).2.1.mesh_layer ∧
    (generateMesh env cfg (generateMesh env cfg st).2.1).2.1.tsdf_map =
      (generateMesh env cfg st).2.1.tsdf_map := by
  constructor <;>
    (rw [generateMesh_state, generateMesh_state]
     simp [List.map_map, Function.comp])

/-- Claim C7 counterexample: a load request carries only a file path; the
callback passes the hard-coded kReplace strategy to the codec (no
caller-supplied strategy exists), and the loaded block — index 0 — ends
up with its updated (dirty) flag false: loaded blocks are not marked
dirty. -/
theorem loadMap_no_dirty_marking_cex :
    (loadMapCallback envLoadOne stA ⟨"map.tsdf"⟩).2.2 =
      [Event.loadBlocksEv "map.tsdf" BlockMergingStrategy.kReplace] ∧
    (loadMapCallback envLoadOne stA ⟨"map.tsdf"⟩).2.1.tsdf_map.blocks =
      [(0, ⟨7, false⟩)] ∧
    (loadMapCallback envLoadOne stA ⟨"map.tsdf"⟩).1 = true := by
  decide

/-- Claim C7 (amended): loadMap delegates to the persistence codec with
the fixed kReplace merging strategy — the request supplies only a file
path, no strategy — returns the codec's boolean, installs exactly the map
the codec returns (so no dirty-marking of loaded blocks is added), and
leaves the mesh layer and both watermarks unchanged. -/
theorem loadMapCallback_delegates_kReplace (env : Env) (st : ServerState)
    (req : FilePathRequest) :
    (loadMapCallback env st req).1 =
      (env.loadBlocksFromFile req.file_path BlockMergingStrategy.kReplace
        st.tsdf_map).1 ∧
    (loadMapCallback env st req).2.1.tsdf_map =
      (env.loadBlocksFromFile req.file_path BlockMergingStrategy.kReplace
        st.tsdf_map).2 ∧
    (loadMapCallback env st req).2.1.mesh_layer = st.mesh_layer ∧
    (loadMapCallback env st req).2.1.last_msg_time = st.last_msg_time ∧
    (loadMapCallback env st req).2.1.freespace_last_msg_time =
      st.freespace_last_msg_time ∧
    (loadMapCallback env st req).2.2 =
      [Event.loadBlocksEv req.file_path BlockMergingStrategy.kReplace] := by
  simp [loadMapCallback]

/-- Claim C10: clearing removes every allocated block of the TSDF map and
empties the mesh artifact, while both throttle watermarks and the
integrator's non-map internal state are unchanged (the configuration is a
constructor-time constant the clear operation cannot touch). -/
theorem clear_empties_map_and_mesh (st : ServerState) :
    (clear st).tsdf_map.blocks = [] ∧
    (clear st).mesh_layer.blocks = [] ∧
    (clear st).last_msg_time = st.last_msg_time ∧
    (clear st).freespace_last_msg_time = st.freespace_last_msg_time ∧
    (clear st).integrator_state = st.integrator_state := by
  simp [clear, removeAllBlocks, meshLayerClear]

end TsdfServerModel
